import Mathlib

/-!
Verification development for the adb-tv-tool-pc device session core.

This file gives a shallow embedding of the two core modules,
`utils/adb_manager.py` (binary resolution and command execution) and
`utils/device_manager.py` (the active-device registry), and proves or
refutes the specified properties against that embedding.

Conventions of the embedding:
- Machine behaviour of the external child process (exit code, raw output
  bytes, whether it outlived the timeout, whether it could be spawned at
  all) is an explicit input of type `RawOutcome`.
- Python exceptions are modelled as explicit constructors or as `Except`
  values; a caught exception is one that the embedded function consumes
  without propagating.
- Bytes are `Nat` values below 256 in a `List Nat`; strict text decoding
  is modelled by a UTF-8 decoder returning `Option`.
-/

/-- A continuation byte of a UTF-8 sequence lies in 0x80..0xBF. -/
def contOk (b : Nat) : Bool :=
  0x80 ≤ b && b ≤ 0xBF

/-- Allowed range of the first continuation byte of a three-byte UTF-8
sequence, which depends on the lead byte (excludes overlong encodings and
surrogate code points). -/
def cont3Ok (b c1 : Nat) : Bool :=
  if b = 0xE0 then 0xA0 ≤ c1 && c1 ≤ 0xBF
  else if b = 0xED then 0x80 ≤ c1 && c1 ≤ 0x9F
  else contOk c1

/-- Allowed range of the first continuation byte of a four-byte UTF-8
sequence, which depends on the lead byte (excludes overlong encodings and
code points above 0x10FFFF). -/
def cont4Ok (b c1 : Nat) : Bool :=
  if b = 0xF0 then 0x90 ≤ c1 && c1 ≤ 0xBF
  else if b = 0xF4 then 0x80 ≤ c1 && c1 ≤ 0x8F
  else contOk c1

/-- Code point of a two-byte UTF-8 sequence. -/
def cp2 (b c1 : Nat) : Nat :=
  (b - 0xC0) * 0x40 + (c1 - 0x80)

/-- Code point of a three-byte UTF-8 sequence. -/
def cp3 (b c1 c2 : Nat) : Nat :=
  (b - 0xE0) * 0x1000 + (c1 - 0x80) * 0x40 + (c2 - 0x80)

/-- Code point of a four-byte UTF-8 sequence. -/
def cp4 (b c1 c2 c3 : Nat) : Nat :=
  (b - 0xF0) * 0x40000 + (c1 - 0x80) * 0x1000 + (c2 - 0x80) * 0x40 + (c3 - 0x80)

/-- Strict UTF-8 decoding of a byte list into a code-point list, modelling
the strict (errors unhandled) text decoding that CPython applies to
captured output when a subprocess is run in text mode: `none` models a
raised UnicodeDecodeError. -/
def utf8Decode : List Nat → Option (List Nat)
  | [] => some []
  | b :: bs =>
    if b ≤ 0x7F then
      match utf8Decode bs with
      | some cs => some (b :: cs)
      | none => none
    else if b ≤ 0xC1 then none
    else if b ≤ 0xDF then
      match bs with
      | c1 :: r =>
        if contOk c1 then
          match utf8Decode r with
          | some cs => some (cp2 b c1 :: cs)
          | none => none
        else none
      | [] => none
    else if b ≤ 0xEF then
      match bs with
      | c1 :: c2 :: r =>
        if cont3Ok b c1 && contOk c2 then
          match utf8Decode r with
          | some cs => some (cp3 b c1 c2 :: cs)
          | none => none
        else none
      | _ => none
    else if b ≤ 0xF4 then
      match bs with
      | c1 :: c2 :: c3 :: r =>
        if cont4Ok b c1 && contOk c2 && contOk c3 then
          match utf8Decode r with
          | some cs => some (cp4 b c1 c2 c3 :: cs)
          | none => none
        else none
      | _ => none
    else none

/-- Behaviour of the external child process for one invocation: it either
starts, runs and exits within the timeout with an exit code and raw output
bytes, or it fails to exit within the timeout, or spawning it fails
entirely (binary missing, permission denied). -/
inductive RawOutcome where
  | exited (returncode : Int) (stdoutBytes stderrBytes : List Nat)
  | sleepsPastTimeout
  | spawnFailure (msg : String)
deriving DecidableEq

/-- Captured output of one stream: decoded text (code points) in text
mode, raw bytes in binary mode. The two are mode-exclusive by type. -/
inductive OutData where
  | textOut (codepoints : List Nat)
  | bytesOut (bytes : List Nat)
deriving DecidableEq

/-- Result of the library call `subprocess.run(cmd, capture_output=True,
text=text, timeout=timeout)` as seen by `run_adb_command`: a completed
process object, a raised TimeoutExpired, or another raised exception.
Modelled from CPython: in text mode the captured streams are decoded
strictly, so undecodable bytes raise (modelled message
"UnicodeDecodeError"); in binary mode bytes are returned untouched. -/
inductive PyRunResult where
  | completed (returncode : Int) (stdout stderr : OutData)
  | timeoutExpired
  | raised (msg : String)
deriving DecidableEq

/-- Embedding of `subprocess.run` with `capture_output=True` on a given
child-process behaviour. -/
def subprocess_run (text : Bool) : RawOutcome → PyRunResult
  | RawOutcome.exited rc out err =>
    if text then
      match utf8Decode out, utf8Decode err with
      | some o, some e => PyRunResult.completed rc (OutData.textOut o) (OutData.textOut e)
      | some _, none => PyRunResult.raised "UnicodeDecodeError"
      | none, _ => PyRunResult.raised "UnicodeDecodeError"
    else
      PyRunResult.completed rc (OutData.bytesOut out) (OutData.bytesOut err)
  | RawOutcome.sleepsPastTimeout => PyRunResult.timeoutExpired
  | RawOutcome.spawnFailure msg => PyRunResult.raised msg

/-- Fate of the child process after the invocation returns. -/
inductive ChildFate where
  | exitedSelf
  | killedOnTimeout
  | neverRan
deriving DecidableEq

/-- Fate of the child process, modelled from CPython `subprocess.run`:
a child that completes exits on its own; a child that outlives the
timeout is killed by `subprocess.run` before TimeoutExpired is re-raised;
a spawn failure means no child ever ran. -/
def childFate : RawOutcome → ChildFate
  | RawOutcome.exited _ _ _ => ChildFate.exitedSelf
  | RawOutcome.sleepsPastTimeout => ChildFate.killedOnTimeout
  | RawOutcome.spawnFailure _ => ChildFate.neverRan

/-- The dict returned by `ADBManager.run_adb_command`; a field holding
`none` models a key that is absent from the dict. -/
structure CommandResult where
  success : Bool
  returncode : Option Int
  stdout : Option OutData
  stderr : Option OutData
  error : Option String
deriving DecidableEq

/-- Embedding of `ADBManager.run_adb_command(args, timeout, text)` from
`utils/adb_manager.py` lines 180-250. The body builds the command, calls
`subprocess.run`, and on normal completion returns success, returncode and
both streams; a TimeoutExpired is caught and mapped to a two-field dict
whose error text interpolates the timeout; any other exception is caught
and mapped to a two-field dict carrying the exception text. The `args`
list only feeds the spawned command line and the diagnostic print, so the
result depends on it only through the child behaviour `raw`. -/
def run_adb_command (args : List String) (timeout : Nat) (text : Bool)
    (raw : RawOutcome) : CommandResult :=
  match subprocess_run text raw with
  | PyRunResult.completed rc so se =>
      { success := rc == 0, returncode := some rc,
        stdout := some so, stderr := some se, error := none }
  | PyRunResult.timeoutExpired =>
      { success := false, returncode := none, stdout := none, stderr := none,
        error := some ("命令超时: " ++ toString timeout ++ "秒") }
  | PyRunResult.raised msg =>
      { success := false, returncode := none, stdout := none, stderr := none,
        error := some msg }

/-!
Binary resolution: embedding of `ADBManager.setup_builtin_adb` and its
helpers `_extract_adb_from_resources`, `_copy_adb_from_e_drive` and
`_try_find_adb_alternative` (`utils/adb_manager.py` lines 26-178).

The filesystem facts the methods consult are an explicit environment of
booleans. Filesystem copy operations on files that exist are assumed to
succeed; a copy whose source file is missing raises, exactly as
`shutil.copy2` does.
-/

/-- Filesystem environment consulted during binary resolution. Fields
with a `DirExists` suffix say the directory itself exists; the matching
`HasExe` field says the directory also holds the bridge executable
`adb.exe`. `meipassHasExe` collapses the check that the frozen-bundle
resource directory exists and contains the executable, and likewise
`tempSubHasExe` for an `adb` subdirectory of the fresh temp directory. -/
structure Env where
  frozen : Bool
  meipassHasExe : Bool
  tempSubHasExe : Bool
  eDriveExists : Bool
  eDriveHasExe : Bool
  cwdAdbDirExists : Bool
  cwdAdbHasExe : Bool
  exeAdbDirExists : Bool
  exeAdbHasExe : Bool
  whichAdb : Bool
deriving DecidableEq

/-- Candidate location that ends up providing the staged `adb.exe`. -/
inductive Source where
  | meipass
  | tempSub
  | eDrive
  | cwdAdb
  | exeDir
  | sysPath
deriving DecidableEq

/-- Embedding of `ADBManager._try_find_adb_alternative` (lines 137-178).
The method checks the `adb` subdirectory of the current working
directory, then the `adb` directory next to the running executable, then
the system search path. A `copy2` from an existing directory that lacks
`adb.exe` raises; the exception is caught by the method's own handler,
which returns False without consulting any later candidate. -/
def try_find_adb_alternative (e : Env) : Option Source :=
  if e.cwdAdbDirExists then
    if e.cwdAdbHasExe then some Source.cwdAdb else none
  else if e.exeAdbDirExists then
    if e.exeAdbHasExe then some Source.exeDir else none
  else if e.whichAdb then some Source.sysPath
  else none

/-- Embedding of `ADBManager._extract_adb_from_resources` (lines 93-135).
Files from the frozen-bundle resource directory are copied into the temp
directory first, then files from an `adb` subdirectory of the temp
directory (the later copy overwrites). If `adb.exe` did not land in the
temp directory the method falls through to
`_try_find_adb_alternative`. -/
def extract_adb_from_resources (e : Env) : Option Source :=
  if e.tempSubHasExe then some Source.tempSub
  else if e.meipassHasExe then some Source.meipass
  else try_find_adb_alternative e

/-- Embedding of `ADBManager.setup_builtin_adb` (lines 26-61), returning
the location that provided the staged executable, or `Except.error ()`
when the method raises. In a frozen run it extracts from bundled
resources (itself falling back to the alternative chain); on failure it
calls `_copy_adb_from_e_drive`, whose own raise (the E:/ADB directory is
missing) propagates out of `setup_builtin_adb` uncaught. In a non-frozen
run it calls `_copy_adb_from_e_drive` directly, so a missing E:/ADB
directory aborts resolution before any other location is consulted; only
when that copy ran but produced no `adb.exe` does the alternative chain
run. -/
def setup_builtin_adb (e : Env) : Except Unit Source :=
  if e.frozen then
    match extract_adb_from_resources e with
    | some src => Except.ok src
    | none =>
      if e.eDriveExists then
        if e.eDriveHasExe then Except.ok Source.eDrive
        else
          match try_find_adb_alternative e with
          | some src => Except.ok src
          | none => Except.error ()
      else Except.error ()
  else
    if e.eDriveExists then
      if e.eDriveHasExe then Except.ok Source.eDrive
      else
        match try_find_adb_alternative e with
        | some src => Except.ok src
        | none => Except.error ()
    else Except.error ()

/-- Modelled from the spec, for comparison with `setup_builtin_adb`: the
claimed resolution order — (1) resources bundled alongside a frozen
executable, (2) a package-local adb subdirectory next to the running
program, (3) an adb subdirectory of the current working directory,
(4) the first match on the executable search path — stopping at the
first candidate that yields the executable, with no other locations
consulted. -/
def claimed_resolution (e : Env) : Except Unit Source :=
  if e.frozen && e.meipassHasExe then Except.ok Source.meipass
  else if e.exeAdbDirExists && e.exeAdbHasExe then Except.ok Source.exeDir
  else if e.cwdAdbDirExists && e.cwdAdbHasExe then Except.ok Source.cwdAdb
  else if e.whichAdb then Except.ok Source.sysPath
  else Except.error ()

/-- Development-mode environment where only the directory next to the
running program holds the executable: the claimed order would resolve it,
the code raises because E:/ADB is missing. -/
def envExeDirOnly : Env :=
  { frozen := false, meipassHasExe := false, tempSubHasExe := false,
    eDriveExists := false, eDriveHasExe := false,
    cwdAdbDirExists := false, cwdAdbHasExe := false,
    exeAdbDirExists := true, exeAdbHasExe := true, whichAdb := false }

/-- Environment where E:/ADB exists and holds the executable. -/
def envEDrive : Env :=
  { frozen := false, meipassHasExe := false, tempSubHasExe := false,
    eDriveExists := true, eDriveHasExe := true,
    cwdAdbDirExists := false, cwdAdbHasExe := false,
    exeAdbDirExists := false, exeAdbHasExe := false, whichAdb := false }

/-- Environment where both the current working directory and the
directory next to the running program hold the executable. -/
def envCwdAndExe : Env :=
  { frozen := false, meipassHasExe := false, tempSubHasExe := false,
    eDriveExists := true, eDriveHasExe := false,
    cwdAdbDirExists := true, cwdAdbHasExe := true,
    exeAdbDirExists := true, exeAdbHasExe := true, whichAdb := false }

/-!
Active-device registry: embedding of `utils/device_manager.py`.
State is passed explicitly; each mutating call returns the new state
together with the notification round it performed, recorded as the list
of pairs (value passed to the listener, outcome of that call).
-/

/-- Embedding of the `DeviceInfo` dataclass (lines 13-19). -/
structure DeviceInfo where
  serial : String
  name : Option String
  model : Option String
  status : String
deriving DecidableEq

/-- A registered listener: invoked with the new device on `set` and with
the empty value on `clear`; returning `Except.error` models a raised
exception. -/
def Listener : Type :=
  Option DeviceInfo → Except String Unit

/-- State of the `DeviceManager` singleton: the active-device slot
`_current_device` and the listener list `_device_listeners`, held in
registration order. -/
structure DeviceManager where
  current_device : Option DeviceInfo
  device_listeners : List Listener

/-- One notification round: every listener, in registration order, is
invoked with the value; the `try`/`except` around each call means a
raising listener is logged and the loop continues with the next listener
in both cases. The trace records, per listener, the value it received and
the outcome of its call. -/
def notify_listeners : List Listener → Option DeviceInfo →
    List (Option DeviceInfo × Except String Unit)
  | [], _ => []
  | l :: ls, v =>
    match l v with
    | Except.ok u => (v, Except.ok u) :: notify_listeners ls v
    | Except.error msg => (v, Except.error msg) :: notify_listeners ls v

/-- Embedding of `DeviceManager.set_current_device` (lines 35-45): the
slot is overwritten with the new device, then every listener is notified
with it; the method itself never raises. -/
def DeviceManager.set_current_device (dm : DeviceManager)
    (device_info : DeviceInfo) :
    DeviceManager × List (Option DeviceInfo × Except String Unit) :=
  ({ current_device := some device_info,
     device_listeners := dm.device_listeners },
   notify_listeners dm.device_listeners (some device_info))

/-- Embedding of `DeviceManager.get_current_device` (lines 47-49). -/
def DeviceManager.get_current_device (dm : DeviceManager) :
    Option DeviceInfo :=
  dm.current_device

/-- Embedding of `DeviceManager.clear_current_device` (lines 51-61): the
slot is emptied, then every listener is notified with the empty value. -/
def DeviceManager.clear_current_device (dm : DeviceManager) :
    DeviceManager × List (Option DeviceInfo × Except String Unit) :=
  ({ current_device := none, device_listeners := dm.device_listeners },
   notify_listeners dm.device_listeners none)

/-- Embedding of the module-level convenience function
`set_current_device(serial, name, model, status)` (lines 85-93): builds a
`DeviceInfo` from its arguments and hands it to the manager. -/
def set_current_device (dm : DeviceManager) (serial : String)
    (name : Option String) (model : Option String) (status : String) :
    DeviceManager × List (Option DeviceInfo × Except String Unit) :=
  DeviceManager.set_current_device dm
    { serial := serial, name := name, model := model, status := status }

/-- Python default values of the convenience function's optional
parameters: `name=None`, `model=None`, `status="device"` (line 85). A
call `set_current_device(serial)` that omits them uses exactly these. -/
def set_current_device_default_status : String := "device"

/-- The status values the spec enumerates for `DeviceInfo.status`
(spec §3): unknown, connecting, connected, disconnected. Modelled from
the spec for comparison with the code's default. -/
def spec_status_values : List String :=
  ["unknown", "connecting", "connected", "disconnected"]

/-- Listener that always returns normally. -/
def listenerOk : Listener := fun _ => Except.ok ()

/-- Listener that always raises. -/
def listenerBoom : Listener := fun _ => Except.error "boom"

/-- Sample device for witnesses. -/
def devA : DeviceInfo :=
  { serial := "192.168.1.10:5555", name := none, model := none,
    status := "device" }

/-- Sample registry state with a raising listener registered between two
well-behaved ones. -/
def dmSample : DeviceManager :=
  { current_device := none,
    device_listeners := [listenerOk, listenerBoom, listenerOk] }

/-- Notification rounds traverse the listener list in order, invoking
each listener exactly once with the given value, regardless of whether
any listener raises. -/
theorem notify_listeners_eq_map (ls : List Listener) (v : Option DeviceInfo) :
    notify_listeners ls v = ls.map (fun l => (v, l v)) := by
  induction ls with
  | nil => rfl
  | cons l ls ih =>
    simp only [notify_listeners, List.map]
    cases h : l v <;> simp [ih, h]

/-- Helper: in text mode, a stream that fails strict decoding makes the
whole invocation return the caught-exception record. -/
theorem run_adb_decode_fail_aux (args : List String) (timeout : Nat)
    (rc : Int) (out err : List Nat)
    (h : utf8Decode out = none ∨ utf8Decode err = none) :
    run_adb_command args timeout true (RawOutcome.exited rc out err)
      = { success := false, returncode := none, stdout := none,
          stderr := none, error := some "UnicodeDecodeError" } := by
  rcases h with ho | he
  · simp [run_adb_command, subprocess_run, ho]
  · cases ho : utf8Decode out with
    | none => simp [run_adb_command, subprocess_run, ho]
    | some o => simp [run_adb_command, subprocess_run, ho, he]

/-- C1 (amended): when the child starts and exits within the timeout,
and additionally in text mode both captured streams decode under the
strict codec, the result's success field is true iff the exit code is
zero and its returncode field holds that exit code; the returncode field
is absent exactly when the process never started, was killed by timeout,
or the invocation was in text mode and a stream failed to decode. -/
theorem run_adb_exit_code_amended (args : List String) (timeout : Nat)
    (text : Bool) (raw : RawOutcome) :
    (∀ rc out err, raw = RawOutcome.exited rc out err →
        (text = true →
          (utf8Decode out).isSome = true ∧ (utf8Decode err).isSome = true) →
        (run_adb_command args timeout text raw).success = (rc == 0)
          ∧ (run_adb_command args timeout text raw).returncode = some rc)
    ∧ ((run_adb_command args timeout text raw).returncode = none ↔
        raw = RawOutcome.sleepsPastTimeout
        ∨ (∃ m, raw = RawOutcome.spawnFailure m)
        ∨ (∃ rc out err, raw = RawOutcome.exited rc out err ∧ text = true
            ∧ (utf8Decode out = none ∨ utf8Decode err = none))) := by
  constructor
  · intro rc out err hraw hdec
    subst hraw
    cases text with
    | false => simp [run_adb_command, subprocess_run]
    | true =>
      obtain ⟨hso, hse⟩ := hdec rfl
      obtain ⟨o, ho⟩ := Option.isSome_iff_exists.mp hso
      obtain ⟨e2, he⟩ := Option.isSome_iff_exists.mp hse
      simp [run_adb_command, subprocess_run, ho, he]
  · cases raw with
    | exited rc out err =>
      cases text with
      | false => simp [run_adb_command, subprocess_run]
      | true =>
        cases ho : utf8Decode out with
        | none =>
          simp [run_adb_command, subprocess_run, ho]
          exact ⟨rc, out, err, ⟨rfl, rfl, rfl⟩, Or.inl ho⟩
        | some o =>
          cases he : utf8Decode err with
          | none =>
            simp [run_adb_command, subprocess_run, ho, he]
            exact ⟨rc, out, err, ⟨rfl, rfl, rfl⟩, Or.inr he⟩
          | some e2 => simp [run_adb_command, subprocess_run, ho, he]
    | sleepsPastTimeout => simp [run_adb_command, subprocess_run]
    | spawnFailure m => simp [run_adb_command, subprocess_run]

/-- Witness for C1 (amended) at a concrete decodable invocation. -/
theorem run_adb_exit_code_amended_witness :
    (run_adb_command ["devices"] 5 true (RawOutcome.exited 2 [104] [])).success
        = ((2 : Int) == 0)
    ∧ (run_adb_command ["devices"] 5 true (RawOutcome.exited 2 [104] [])).returncode
        = some 2 :=
  (run_adb_exit_code_amended ["devices"] 5 true
      (RawOutcome.exited 2 [104] [])).1 2 [104] [] rfl (fun _ => ⟨rfl, rfl⟩)

/-- C1 (counterexample): a child that starts, exits within the timeout
with exit code zero, and writes one undecodable byte in text mode yields
success false and an absent returncode, contradicting the claim that
success is true iff the exit code is zero and that the exit-code field is
absent only for spawn failure or timeout. -/
theorem run_adb_exit_code_counterexample :
    (run_adb_command ["devices"] 30 true
        (RawOutcome.exited 0 [255] [])).returncode = none
    ∧ (run_adb_command ["devices"] 30 true
        (RawOutcome.exited 0 [255] [])).success = false :=
  ⟨rfl, rfl⟩

/-- C2: a child that does not exit within the timeout is killed by the
runner, and the result reports success false, an error string containing
the timeout duration, and no exit code. -/
theorem run_adb_timeout_contract (args : List String) (timeout : Nat)
    (text : Bool) :
    (run_adb_command args timeout text RawOutcome.sleepsPastTimeout).success
        = false
    ∧ (∃ pre post,
        (run_adb_command args timeout text RawOutcome.sleepsPastTimeout).error
          = some (pre ++ toString timeout ++ post))
    ∧ (run_adb_command args timeout text RawOutcome.sleepsPastTimeout).returncode
        = none
    ∧ childFate RawOutcome.sleepsPastTimeout = ChildFate.killedOnTimeout :=
  ⟨rfl, ⟨"命令超时: ", "秒", rfl⟩, rfl, rfl⟩

/-- C3: under the stated preconditions, spawn failure, timeout and
non-zero exit never escape as exceptions: `run_adb_command` is a total
function into `CommandResult`, and each of those outcomes is encoded as
success false together with an error field or a non-zero returncode. -/
theorem run_adb_no_raise_encoding (args : List String) (timeout : Nat)
    (text : Bool) (raw : RawOutcome)
    (hargs : args ≠ []) (htimeout : 0 < timeout) :
    (∀ m, raw = RawOutcome.spawnFailure m →
        (run_adb_command args timeout text raw).success = false
        ∧ (run_adb_command args timeout text raw).error = some m)
    ∧ (raw = RawOutcome.sleepsPastTimeout →
        (run_adb_command args timeout text raw).success = false
        ∧ ((run_adb_command args timeout text raw).error).isSome = true)
    ∧ (∀ rc out err, raw = RawOutcome.exited rc out err → rc ≠ 0 →
        (run_adb_command args timeout text raw).success = false
        ∧ (((run_adb_command args timeout text raw).error).isSome = true
            ∨ (run_adb_command args timeout text raw).returncode = some rc)) := by
  refine ⟨?_, ?_, ?_⟩
  · intro m h; subst h; exact ⟨rfl, rfl⟩
  · intro h; subst h; exact ⟨rfl, rfl⟩
  · intro rc out err h hrc
    subst h
    cases text with
    | false =>
      constructor
      · simp [run_adb_command, subprocess_run, hrc]
      · right; simp [run_adb_command, subprocess_run]
    | true =>
      cases ho : utf8Decode out with
      | none => constructor <;> simp [run_adb_command, subprocess_run, ho]
      | some o =>
        cases he : utf8Decode err with
        | none => constructor <;> simp [run_adb_command, subprocess_run, ho, he]
        | some e2 =>
          constructor
          · simp [run_adb_command, subprocess_run, ho, he, hrc]
          · right; simp [run_adb_command, subprocess_run, ho, he]

/-- Witness for C3 at a concrete spawn failure. -/
theorem run_adb_no_raise_encoding_witness :
    (run_adb_command ["devices"] 30 false
        (RawOutcome.spawnFailure "FileNotFoundError")).success = false
    ∧ (run_adb_command ["devices"] 30 false
        (RawOutcome.spawnFailure "FileNotFoundError")).error
        = some "FileNotFoundError" :=
  (run_adb_no_raise_encoding ["devices"] 30 false
      (RawOutcome.spawnFailure "FileNotFoundError")
      (List.cons_ne_nil "devices" []) (by decide)).1 "FileNotFoundError" rfl

/-- C4 (counterexample): in text mode, output holding a stray undecodable
byte does not produce a successful, lossily decoded result: the strict
decode raises inside the library call, the exception is caught, and the
call returns success false with no stdout field, contradicting the
claimed tolerant decoding. -/
theorem run_adb_text_decode_counterexample :
    (run_adb_command ["shell", "ls"] 30 true
        (RawOutcome.exited 0 [255] [104])).success = false
    ∧ (run_adb_command ["shell", "ls"] 30 true
        (RawOutcome.exited 0 [255] [104])).stdout = none
    ∧ (run_adb_command ["shell", "ls"] 30 true
        (RawOutcome.exited 0 [255] [104])).error
        = some "UnicodeDecodeError" :=
  ⟨rfl, rfl, rfl⟩

/-- C4 (amended): in text mode, output with undecodable bytes never
propagates an exception to the caller: the decode error raised inside
the library call is caught and the call returns the failure record
success false with a descriptive error and no output fields (no lossy
decoding is performed). -/
theorem run_adb_text_decode_amended (args : List String) (timeout : Nat)
    (rc : Int) (out err : List Nat)
    (h : utf8Decode out = none ∨ utf8Decode err = none) :
    run_adb_command args timeout true (RawOutcome.exited rc out err)
      = { success := false, returncode := none, stdout := none,
          stderr := none, error := some "UnicodeDecodeError" } :=
  run_adb_decode_fail_aux args timeout rc out err h

/-- Witness for C4 (amended) at a concrete undecodable output. -/
theorem run_adb_text_decode_amended_witness :
    run_adb_command ["shell"] 30 true (RawOutcome.exited 0 [255] [])
      = { success := false, returncode := none, stdout := none,
          stderr := none, error := some "UnicodeDecodeError" } :=
  run_adb_text_decode_amended ["shell"] 30 0 [255] [] (Or.inl rfl)

/-- C9: an invocation that ends in timeout or in a caught exception
(spawn failure, or a text-mode decode failure) returns a record holding
only the success and error fields: the stdout, stderr and returncode
fields are absent, not present with empty values. -/
theorem run_adb_failure_fields (args : List String) (timeout : Nat)
    (text : Bool) (raw : RawOutcome)
    (h : raw = RawOutcome.sleepsPastTimeout
        ∨ (∃ m, raw = RawOutcome.spawnFailure m)
        ∨ (∃ rc out err, raw = RawOutcome.exited rc out err ∧ text = true
            ∧ (utf8Decode out = none ∨ utf8Decode err = none))) :
    (run_adb_command args timeout text raw).stdout = none
    ∧ (run_adb_command args timeout text raw).stderr = none
    ∧ (run_adb_command args timeout text raw).returncode = none
    ∧ ((run_adb_command args timeout text raw).error).isSome = true
    ∧ (run_adb_command args timeout text raw).success = false := by
  rcases h with h | ⟨m, h⟩ | ⟨rc, out, err, h, ht, hd⟩
  · subst h; exact ⟨rfl, rfl, rfl, rfl, rfl⟩
  · subst h; exact ⟨rfl, rfl, rfl, rfl, rfl⟩
  · subst h; subst ht
    rw [run_adb_decode_fail_aux args timeout rc out err hd]
    exact ⟨rfl, rfl, rfl, rfl, rfl⟩

/-- Witness for C9 at a concrete timeout. -/
theorem run_adb_failure_fields_witness :
    (run_adb_command ["install", "-r", "app.apk"] 60 true
        RawOutcome.sleepsPastTimeout).stdout = none
    ∧ (run_adb_command ["install", "-r", "app.apk"] 60 true
        RawOutcome.sleepsPastTimeout).stderr = none
    ∧ (run_adb_command ["install", "-r", "app.apk"] 60 true
        RawOutcome.sleepsPastTimeout).returncode = none
    ∧ ((run_adb_command ["install", "-r", "app.apk"] 60 true
        RawOutcome.sleepsPastTimeout).error).isSome = true
    ∧ (run_adb_command ["install", "-r", "app.apk"] 60 true
        RawOutcome.sleepsPastTimeout).success = false :=
  run_adb_failure_fields ["install", "-r", "app.apk"] 60 true
    RawOutcome.sleepsPastTimeout (Or.inl rfl)

/-- C5 (counterexample): in a development-mode environment whose only
usable candidate among the four claimed locations is the adb directory
next to the running program, the claimed order resolves it, but
`setup_builtin_adb` raises, because the unlisted E:/ADB copy step runs
first and its failure propagates before any claimed candidate after (1)
is consulted. -/
theorem setup_order_counterexample :
    setup_builtin_adb envExeDirOnly = Except.error ()
    ∧ claimed_resolution envExeDirOnly = Except.ok Source.exeDir :=
  ⟨rfl, rfl⟩

/-- C5 (amended): the actual resolution behaviour. A non-frozen run
requires the E:/ADB copy first: if that directory is missing, resolution
fails without consulting any other location; if it exists and holds the
executable it wins. Only when the copy produced no executable (or, in a
frozen run, bundle extraction failed) does the fallback chain run, and
that chain tries the current working directory's adb subdirectory before
the directory next to the running program, then the search path; a
fallback directory that exists without the executable aborts the whole
chain. In a frozen run the bundled resources are tried first, the
temp-staged copy taking precedence over the bundle directory. -/
theorem setup_actual_order (e : Env) :
    (e.frozen = false → e.eDriveExists = false →
        setup_builtin_adb e = Except.error ())
    ∧ (e.eDriveExists = true → e.eDriveHasExe = true →
        (e.frozen = false ∨ extract_adb_from_resources e = none) →
        setup_builtin_adb e = Except.ok Source.eDrive)
    ∧ (e.cwdAdbDirExists = true → e.cwdAdbHasExe = true →
        try_find_adb_alternative e = some Source.cwdAdb)
    ∧ (e.cwdAdbDirExists = true → e.cwdAdbHasExe = false →
        try_find_adb_alternative e = none)
    ∧ (e.cwdAdbDirExists = false → e.exeAdbDirExists = true →
        e.exeAdbHasExe = true →
        try_find_adb_alternative e = some Source.exeDir)
    ∧ (e.frozen = true → e.tempSubHasExe = false → e.meipassHasExe = true →
        setup_builtin_adb e = Except.ok Source.meipass) := by
  refine ⟨?_, ?_, ?_, ?_, ?_, ?_⟩
  · intro h1 h2
    simp [setup_builtin_adb, h1, h2]
  · intro h1 h2 h3
    rcases h3 with hf | hext
    · simp [setup_builtin_adb, hf, h1, h2]
    · cases hf : e.frozen with
      | false => simp [setup_builtin_adb, hf, h1, h2]
      | true => simp [setup_builtin_adb, hf, hext, h1, h2]
  · intro h1 h2
    simp [try_find_adb_alternative, h1, h2]
  · intro h1 h2
    simp [try_find_adb_alternative, h1, h2]
  · intro h1 h2 h3
    simp [try_find_adb_alternative, h1, h2, h3]
  · intro h1 h2 h3
    simp [setup_builtin_adb, extract_adb_from_resources, h1, h2, h3]

/-- Witness for C5 (amended) at two concrete environments: the E-drive
source wins in development mode, and the fallback chain prefers the
working directory over the program directory even when both hold the
executable. -/
theorem setup_actual_order_witness :
    setup_builtin_adb envEDrive = Except.ok Source.eDrive
    ∧ try_find_adb_alternative envCwdAndExe = some Source.cwdAdb :=
  ⟨((setup_actual_order envEDrive).2.1) rfl rfl (Or.inl rfl),
   ((setup_actual_order envCwdAndExe).2.2.1) rfl rfl⟩

/-- C6: both mutators notify every registered listener in registration
order, and a listener that raises is caught and logged: its exception
reaches neither the caller (the embedded mutators are total functions)
nor the later-registered listeners, which are still invoked with the same
value in the same round. -/
theorem listener_isolation (dm : DeviceManager) (ls1 ls2 : List Listener)
    (l : Listener) (d : DeviceInfo) (msg msg2 : String)
    (h : dm.device_listeners = ls1 ++ l :: ls2)
    (h1 : l (some d) = Except.error msg)
    (h2 : l none = Except.error msg2) :
    (DeviceManager.set_current_device dm d).2
      = (ls1.map fun f => (some d, f (some d)))
        ++ (some d, Except.error msg)
          :: (ls2.map fun f => (some d, f (some d)))
    ∧ (DeviceManager.clear_current_device dm).2
      = (ls1.map fun f => ((none : Option DeviceInfo), f none))
        ++ ((none : Option DeviceInfo), Except.error msg2)
          :: (ls2.map fun f => ((none : Option DeviceInfo), f none)) := by
  constructor
  · simp [DeviceManager.set_current_device, h, notify_listeners_eq_map, h1]
  · simp [DeviceManager.clear_current_device, h, notify_listeners_eq_map, h2]

/-- Witness for C6 at a concrete registry: the raising listener's error
is recorded and the listener registered after it is still notified. -/
theorem listener_isolation_witness :
    (DeviceManager.set_current_device dmSample devA).2
      = ([listenerOk].map fun f => (some devA, f (some devA)))
        ++ (some devA, Except.error "boom")
          :: ([listenerOk].map fun f => (some devA, f (some devA)))
    ∧ (DeviceManager.clear_current_device dmSample).2
      = ([listenerOk].map fun f => ((none : Option DeviceInfo), f none))
        ++ ((none : Option DeviceInfo), Except.error "boom")
          :: ([listenerOk].map fun f => ((none : Option DeviceInfo), f none)) :=
  listener_isolation dmSample [listenerOk] [listenerOk] listenerBoom devA
    "boom" "boom" rfl rfl rfl

/-- C7: two successive set calls produce exactly one notification round
each over the unchanged listener list: every listener is invoked exactly
once per round, seeing the first device in the first round and the second
device in the second round — every delivered value is the corresponding
new device, never the empty value — and the getter afterwards returns the
second device. -/
theorem set_then_set (dm : DeviceManager) (a b : DeviceInfo) :
    DeviceManager.get_current_device
        (DeviceManager.set_current_device
          (DeviceManager.set_current_device dm a).1 b).1 = some b
    ∧ (DeviceManager.set_current_device dm a).1.device_listeners
        = dm.device_listeners
    ∧ (DeviceManager.set_current_device dm a).2
        = dm.device_listeners.map (fun f => (some a, f (some a)))
    ∧ (DeviceManager.set_current_device
          (DeviceManager.set_current_device dm a).1 b).2
        = dm.device_listeners.map (fun f => (some b, f (some b))) := by
  refine ⟨rfl, rfl, ?_, ?_⟩
  · simp [DeviceManager.set_current_device, notify_listeners_eq_map]
  · simp [DeviceManager.set_current_device, notify_listeners_eq_map]

/-- C10: the convenience function called with its Python defaults stores
a `DeviceInfo` whose status is the string "device", a value outside the
status set the spec enumerates. -/
theorem default_status_outside_spec_set (dm : DeviceManager)
    (serial : String) :
    (set_current_device dm serial none none
        set_current_device_default_status).1.current_device
      = some { serial := serial, name := none, model := none,
               status := "device" }
    ∧ set_current_device_default_status = "device"
    ∧ set_current_device_default_status ∉ spec_status_values := by
  refine ⟨rfl, rfl, ?_⟩
  decide
